import Mathlib

/-
Shallow embedding of src/Dave.py, a Discord ticket bot.

The bot's global mutable state is four dictionaries keyed by channel id:
ticket_timers (channel id -> armed background task), ticket_messages
(channel id -> the pinned ticket message), muted_tickets (a set of
channel ids), ticket_types (channel id -> ticket type string).

Strings are modelled as lists of characters (Str).  Calls to external
collaborators (Discord channel creation/deletion/sending, the Gemini AI
calls) are modelled by parameters carrying their outcome (Except values)
and by emitted Effect values; a Python exception escaping a handler is
modelled by returning the state unchanged from the point of the raise.
-/

abbrev Str := List Char

/-- One message of a channel's history, as consumed by get_ticket_messages:
the author's display name, whether the author is a bot, and the content. -/
structure Msg where
  display_name : Str
  author_bot : Bool
  content : Str
  deriving DecidableEq

deriving instance DecidableEq for Except

/-- Environment of one channel as seen by the callbacks: whether the
configured log channel resolves, the channel's topic and name, its message
history (chronological), and the outcomes of the two Gemini calls. -/
structure Env where
  logChannelExists : Bool
  topic : Option Str
  history : List Msg
  channelName : Str
  aiSummary : Except Str Str
  aiReply : Except Str Str
  deriving DecidableEq

/-- The four module-level dictionaries of Dave.py.  ticket_timers maps a
channel id to the time at which its current timer task was armed (the
Python dict maps to the asyncio task object); ticket_messages keeps only
key presence, which is all the source ever reads of it (start_timer's
`if not message: return`); muted_tickets is a Python set; ticket_types
maps a channel id to the chosen type string. -/
structure DaveState where
  ticket_timers : List (Nat × Nat)
  ticket_messages : Finset Nat
  muted_tickets : Finset Nat
  ticket_types : List (Nat × Str)
  deriving DecidableEq

/-- Observable calls to external collaborators, in program order. -/
inductive Effect where
  | respond (text : Str)
  | summaryCall
  | logEmbed (ticket_type : Str) (summary : Str) (channelName : Str)
  | deleteChannel (cid : Nat)
  | replyCall
  | sendChannel (cid : Nat) (text : Str)
  | editMessage
  | deferResp
  | createChannel (cid : Nat) (topic : Str)
  | followup
  deriving DecidableEq

/-- Python dict deletion / overwrite helper: drop every pair with this key. -/
def eraseKey {α : Type} (cid : Nat) (l : List (Nat × α)) : List (Nat × α) :=
  l.filter (fun p => !(p.1 == cid))

/-- `total_seconds = 259200` in start_timer: the fixed 3-day duration. -/
def timerDuration : Nat := 259200

/-- Python's `s.split("-")`: split on each occurrence of the dash, keeping
empty pieces, so the result always has (number of dashes + 1) pieces. -/
def py_split_dash : Str → List Str
  | [] => [[]]
  | c :: rest =>
    if c = '-' then [] :: py_split_dash rest
    else
      match py_split_dash rest with
      | [] => [[c]]
      | p :: ps => (c :: p) :: ps

/-- Lines 159-161 of Dave.py (inside log_ticket_summary):
`ticket_type = "General"`; `if channel.topic and "-" in channel.topic:
ticket_type = channel.topic.split("-")[1]`.  The inner `none` branch is
unreachable because a topic containing a dash splits into at least two
pieces. -/
def parse_topic_ticket_type (topic : Option Str) : Str :=
  match topic with
  | none => ("General").toList
  | some t =>
    if t ≠ [] ∧ '-' ∈ t then
      match (py_split_dash t).get? 1 with
      | some piece => piece
      | none => ("General").toList
    else ("General").toList

/-- `f"{msg.author.display_name}: {msg.content}"` -/
def fmt_msg (m : Msg) : Str :=
  m.display_name ++ (": ").toList ++ m.content

/-- The loop body of get_ticket_messages: keep non-bot messages, formatted. -/
def gather_nonbot : List Msg → List Str
  | [] => []
  | m :: rest =>
    if m.author_bot then gather_nonbot rest
    else fmt_msg m :: gather_nonbot rest

/-- get_ticket_messages: iterate `channel.history(limit=100, oldest_first=True)`
(the 100 oldest messages in chronological order), keep messages whose author
is not a bot, format each, and join with newlines. -/
def get_ticket_messages (history : List Msg) : Str :=
  List.intercalate (("\n").toList) (gather_nonbot (history.take 100))

/-- get_summary_prompt: pick the type-specific style line, then build the
prompt template around the transcript. -/
def get_summary_prompt (ticket_type : Str) (transcript : Str) : Str :=
  let style :=
    if ticket_type = ("Incident").toList then
      ("Write a short steward-style incident report.").toList
    else if ticket_type = ("Report").toList then
      ("Write a short moderation alert.").toList
    else if ticket_type = ("Feedback").toList then
      ("Summarise this feedback suggestion.").toList
    else
      ("Summarise the question and answer.").toList
  ("\nYou are Dave, TRL Ticket Assistant.\n\n").toList ++ style ++
    ("\n\nKeep it short and professional.\n\nTranscript:\n").toList ++
    transcript ++ ("\n").toList

/-- generate_summary: the prompt (get_summary_prompt ticket_type transcript)
is sent to the external model; aiResult is that call's outcome.  On success
the model's text is returned, on any exception the fixed fallback string is
returned — the error is never propagated. -/
def generate_summary (ticket_type : Str) (transcript : Str)
    (aiResult : Except Str Str) : Str :=
  match aiResult with
  | Except.ok text => text
  | Except.error _ => ("Summary could not be generated.").toList

/-- ask_dave: the prompt built from the system prompt, ticket_type and
user_message is sent to the external model; aiResult is that call's
outcome.  On any exception the fixed fallback string is returned — the
error is never propagated. -/
def ask_dave (user_message : Str) (ticket_type : Str)
    (aiResult : Except Str Str) : Str :=
  match aiResult with
  | Except.ok text => text
  | Except.error _ => ("Sorry, I’m having trouble responding right now.").toList

/-- log_ticket_summary: if the configured log channel does not resolve,
return with no effect; otherwise parse the ticket type out of the channel
topic, gather the transcript, call the AI for a summary (one
summary-generation call), and send the embed to the log channel. -/
def log_ticket_summary (env : Env) : List Effect :=
  if env.logChannelExists = false then []
  else
    [Effect.summaryCall,
     Effect.logEmbed (parse_topic_ticket_type env.topic)
       (generate_summary (parse_topic_ticket_type env.topic)
         (get_ticket_messages env.history) env.aiSummary)
       env.channelName]

/-- The topic string set at creation: `f"{user.id}-{ticket_type}"`. -/
def ticketTopic (userId ty : Str) : Str := userId ++ ('-' :: ty)

/-- reset_timer: cancel any existing task for the channel, create a fresh
start_timer task, and store it under the channel id (dict overwrite). -/
def reset_timer (now cid : Nat) (s : DaveState) : DaveState :=
  { s with ticket_timers := (cid, now) :: eraseKey cid s.ticket_timers }

/-- TicketSelect.callback: defer the interaction, create the ticket channel
(an external call that may raise — its outcome is createResult), and only
after it succeeds record the ticket type, send the ticket message, record
it in ticket_messages, and arm the timer.  If channel creation raises, the
exception propagates and none of the later lines run. -/
def ticketSelectCallback (now : Nat) (userId ty : Str)
    (createResult : Except Unit Nat) (s : DaveState) : DaveState × List Effect :=
  match createResult with
  | Except.error _ => (s, [Effect.deferResp])
  | Except.ok cid =>
    let s1 := { s with ticket_types := (cid, ty) :: eraseKey cid s.ticket_types }
    let s2 := { s1 with ticket_messages := insert cid s1.ticket_messages }
    let s3 := reset_timer now cid s2
    (s3,
     [Effect.deferResp,
      Effect.createChannel cid (ticketTopic userId ty),
      Effect.sendChannel cid (("Describe your issue and Dave will assist you.").toList),
      Effect.followup])

/-- ClaimButton.callback: if the actor lacks the staff role, respond
"You are not staff." and stop; otherwise add the channel to muted_tickets,
append a "Claimed By" field to the ticket message's embed, edit the
message, and respond with the claimed confirmation.  No claimant is
recorded in any dictionary and nothing checks whether the ticket was
already claimed.  Returns (new state, new embed field list, effects). -/
def claimButtonCallback (cid : Nat) (isStaff : Bool) (mention : Str)
    (fields : List (Str × Str)) (s : DaveState) :
    DaveState × List (Str × Str) × List Effect :=
  if isStaff = false then
    (s, fields, [Effect.respond (("You are not staff.").toList)])
  else
    ({ s with muted_tickets := insert cid s.muted_tickets },
     fields ++ [((("Claimed By").toList), mention)],
     [Effect.editMessage,
      Effect.respond (("Ticket claimed. Dave will stay quiet unless asked.").toList)])

/-- CloseButton.callback: respond with the analysing notice, run
log_ticket_summary, cancel and delete the timer entry if present, remove
the mute flag if present, and delete the channel.  No registry lookup
gates the summary or the deletion. -/
def closeButtonCallback (cid : Nat) (env : Env) (s : DaveState) :
    DaveState × List Effect :=
  let s1 :=
    if (List.lookup cid s.ticket_timers).isSome then
      { s with ticket_timers := eraseKey cid s.ticket_timers }
    else s
  let s2 :=
    if cid ∈ s1.muted_tickets then
      { s1 with muted_tickets := s1.muted_tickets.erase cid }
    else s1
  (s2,
   Effect.respond (("📋 Dave is analysing the ticket...").toList) ::
     log_ticket_summary env ++ [Effect.deleteChannel cid])

/-- start_timer: when the task starts it reads ticket_messages and returns
at once if the channel has no stored ticket message (sAtArm is the state at
that moment); it then sleeps for the 3-day duration — a task.cancel()
during the wait raises CancelledError, swallowed by the bare except, so a
cancelled task performs nothing; an uncancelled task then runs
log_ticket_summary and deletes the channel without reading any of the four
dictionaries again (sAtFire, the state when the deadline elapses, is passed
through untouched). -/
def start_timer (cid : Nat) (sAtArm : DaveState) (cancelledDuringWait : Bool)
    (sAtFire : DaveState) (env : Env) : DaveState × List Effect :=
  if cid ∉ sAtArm.ticket_messages then (sAtFire, [])
  else if cancelledDuringWait then (sAtFire, [])
  else (sAtFire, log_ticket_summary env ++ [Effect.deleteChannel cid])

/-- on_message: bot authors are ignored; messages outside a text channel of
the ticket category are ignored; if the channel is muted the handler
returns before anything else — in particular before reset_timer; otherwise
the timer is reset, the ticket type is looked up (default "General"), and
one AI reply is generated and sent.  (bot.process_commands is the command
dispatcher, out of scope.) -/
def on_message (now : Nat) (authorIsBot inTicketCategory : Bool) (cid : Nat)
    (content : Str) (env : Env) (s : DaveState) : DaveState × List Effect :=
  if authorIsBot then (s, [])
  else if inTicketCategory = false then (s, [])
  else if cid ∈ s.muted_tickets then (s, [])
  else
    (reset_timer now cid s,
     [Effect.replyCall,
      Effect.sendChannel cid
        (ask_dave content ((List.lookup cid s.ticket_types).getD (("General").toList))
          env.aiReply)])

namespace TimerModel

/-- One arming of the per-channel timer: the time reset_timer created the
task, whether ticket_messages held the channel when the task started, and
the time at which the task's cancel() arrived, if any. -/
structure Arming where
  armedAt : Nat
  msgPresent : Bool
  cancelledAt : Option Nat
  deriving DecidableEq

/-- The instant the task's sleep loop ends and its close path runs. -/
def Arming.fireTime (a : Arming) : Nat := a.armedAt + timerDuration

/-- The arming's close path (summary + deletion) runs iff the ticket
message existed at task start and no cancel arrived strictly before the
fire time (a cancel after the sleep loop ended does not undo the fire). -/
def Arming.fires (a : Arming) : Bool :=
  a.msgPresent &&
    (match a.cancelledAt with
     | none => true
     | some c => decide (a.fireTime ≤ c))

/-- Per-channel view of ticket_timers: the task currently stored in the
dict, plus every task a reset has cancelled and replaced. -/
structure TimerState where
  superseded : List Arming
  current : Option Arming
  deriving DecidableEq

def emptyTimer : TimerState := ⟨[], none⟩

/-- reset_timer for a single channel: cancel the current task (recording
the cancellation time), then create and store a fresh one. -/
def reset (t : Nat) (msgPresent : Bool) (ts : TimerState) : TimerState :=
  match ts.current with
  | none => ⟨ts.superseded, some ⟨t, msgPresent, none⟩⟩
  | some a => ⟨ts.superseded ++ [{ a with cancelledAt := some t }], some ⟨t, msgPresent, none⟩⟩

/-- All armings ever created for the channel. -/
def TimerState.armings (ts : TimerState) : List Arming :=
  ts.superseded ++ ts.current.toList

/-- Three resets at t1, t2, t3 on a previously unarmed channel whose ticket
message exists. -/
def threeResets (t1 t2 t3 : Nat) : TimerState :=
  reset t3 true (reset t2 true (reset t1 true emptyTimer))

end TimerModel

/-- Count of channel-deletion calls in an effect list. -/
def countDeletes (l : List Effect) : Nat :=
  l.countP (fun e => match e with | Effect.deleteChannel _ => true | _ => false)

/-- Count of AI summary-generation calls in an effect list. -/
def countSummaryCalls (l : List Effect) : Nat :=
  l.countP (fun e => match e with | Effect.summaryCall => true | _ => false)

/-- A concrete channel environment for ticket 1 (the log channel resolves,
the topic was set at creation for user 12345 and type Incident, both AI
calls succeed). -/
def sampleEnv : Env :=
  { logChannelExists := true
    topic := some (ticketTopic (("12345").toList) (("Incident").toList))
    history := []
    channelName := ("incident-racer").toList
    aiSummary := Except.ok (("All good.").toList)
    aiReply := Except.ok (("Hi!").toList) }

/-- The empty registry (process start). -/
def emptyState : DaveState := ⟨[], ∅, ∅, []⟩

/-- State after user 12345 creates an Incident ticket on channel 1 at time 0. -/
def s_created : DaveState :=
  (ticketSelectCallback 0 (("12345").toList) (("Incident").toList)
    (Except.ok 1) emptyState).1

/-- State after staff member A claims ticket 1. -/
def s_claimed : DaveState :=
  (claimButtonCallback 1 true (("@staffA").toList) [] s_created).1

/-- Effects of closing ticket 1 twice in a row (manual close racing or
repeating a timer-driven close). -/
def close_twice_effects : List Effect :=
  (closeButtonCallback 1 sampleEnv s_created).2 ++
    (closeButtonCallback 1 sampleEnv (closeButtonCallback 1 sampleEnv s_created).1).2

/-- State after ticket 1 has been manually closed. -/
def s_closed : DaveState := (closeButtonCallback 1 sampleEnv s_created).1

/-- Result of a second claim, by staff member B, on the state and embed
fields left by staff member A's claim of ticket 1. -/
def secondClaim : DaveState × List (Str × Str) × List Effect :=
  claimButtonCallback 1 true (("@staffB").toList)
    (claimButtonCallback 1 true (("@staffA").toList) [] s_created).2.1
    (claimButtonCallback 1 true (("@staffA").toList) [] s_created).1

/-- Python's `s.split("-")` never yields an empty piece list: a string
without a dash is one piece. -/
theorem py_split_dash_no_dash (l : Str) (h : '-' ∉ l) : py_split_dash l = [l] := by
  induction l with
  | nil => rfl
  | cons c rest ih =>
    have hc : ¬ (c = '-') := by
      intro hc
      exact h (by simp [hc])
    have hrest : '-' ∉ rest := fun hm => h (List.mem_cons_of_mem _ hm)
    simp [py_split_dash, hc, ih hrest]

/-- Splitting a string whose first dash sits right after a dash-free head:
the head is the first piece. -/
theorem py_split_dash_append (xs ys : Str) (h : '-' ∉ xs) :
    py_split_dash (xs ++ '-' :: ys) = xs :: py_split_dash ys := by
  induction xs with
  | nil => simp [py_split_dash]
  | cons c rest ih =>
    have hc : ¬ (c = '-') := by
      intro hc
      exact h (by simp [hc])
    have hrest : '-' ∉ rest := fun hm => h (List.mem_cons_of_mem _ hm)
    simp [py_split_dash, hc, ih hrest]

/-- The history loop of get_ticket_messages is the formatted non-bot
sublist, in order. -/
theorem gather_nonbot_eq_map_filter (l : List Msg) :
    gather_nonbot l = List.map fmt_msg (List.filter (fun m => !m.author_bot) l) := by
  induction l with
  | nil => rfl
  | cons m rest ih =>
    cases hb : m.author_bot <;> simp [gather_nonbot, hb, ih, List.filter]

/-- Deleting a key from a dict makes its lookup miss. -/
theorem lookup_eraseKey {α : Type} (cid : Nat) (l : List (Nat × α)) :
    List.lookup cid (eraseKey cid l) = none := by
  induction l with
  | nil => rfl
  | cons p rest ih =>
    obtain ⟨k, v⟩ := p
    by_cases h : k = cid
    · simpa [eraseKey, List.filter_cons, h] using ih
    · have hb : (k == cid) = false := beq_false_of_ne h
      have hb2 : (cid == k) = false := beq_false_of_ne (Ne.symm h)
      have he : eraseKey cid ((k, v) :: rest) = (k, v) :: eraseKey cid rest := by
        simp [eraseKey, List.filter_cons, hb]
      rw [he, List.lookup_cons, hb2]
      exact ih

/-- Claim C1 (counterexample): close is not idempotent.  Creating ticket 1
and then invoking the close callback twice on it yields two
channel-deletion calls and two summary-generation calls, and the second
invocation's effect list is nonempty — the code never consults the
registry during close, so the second invocation does not observe
not-found and repeats every side effect. -/
theorem close_not_idempotent :
    countDeletes close_twice_effects = 2 ∧ countSummaryCalls close_twice_effects = 2 ∧
      (closeButtonCallback 1 sampleEnv (closeButtonCallback 1 sampleEnv s_created).1).2 ≠ [] := by
  decide

/-- Claim C1 (amended): every invocation of the close callback emits the
same effects regardless of the registry state — when the log channel
resolves, exactly one summary-generation call and exactly one
channel-deletion call — so a second close on the same channel repeats
both; only the timer-cancellation and mute-removal steps are guarded by
registry membership. -/
theorem close_effects_unconditional (cid : Nat) (env : Env) (s s' : DaveState)
    (h : env.logChannelExists = true) :
    (closeButtonCallback cid env s).2 = (closeButtonCallback cid env s').2 ∧
      countDeletes (closeButtonCallback cid env s).2 = 1 ∧
      countSummaryCalls (closeButtonCallback cid env s).2 = 1 := by
  unfold closeButtonCallback countDeletes countSummaryCalls log_ticket_summary
  simp [h]

/-- Witness for close_effects_unconditional at ticket 1. -/
theorem close_effects_unconditional_witness :
    sampleEnv.logChannelExists = true ∧
      countDeletes (closeButtonCallback 1 sampleEnv s_created).2 = 1 :=
  ⟨rfl, (close_effects_unconditional 1 sampleEnv s_created s_created rfl).2.1⟩

/-- Claim C2 (counterexample): with ticket 1 claimed (channel 1 in the
muted set, timer armed at time 0), an inbound non-bot message at time 100
produces zero assistant replies but also does NOT reset the inactivity
timer — the armed-at time stays 0 instead of becoming 100, because
on_message returns on the mute check before reaching reset_timer, so the
deadline is not extended. -/
theorem mute_gating_no_reset :
    (on_message 100 false true 1 (("hello").toList) sampleEnv s_claimed).2 = [] ∧
      List.lookup 1 (on_message 100 false true 1 (("hello").toList) sampleEnv s_claimed).1.ticket_timers
        = some 0 ∧
      ¬ List.lookup 1 (on_message 100 false true 1 (("hello").toList) sampleEnv s_claimed).1.ticket_timers
        = some 100 := by
  decide

/-- Claim C2 (amended): once claim has succeeded (the channel id is in the
muted set), every subsequent inbound non-bot message in the ticket channel
is a complete no-op: zero assistant replies AND no timer reset — the mute
check precedes the reset, so activity on a claimed ticket does not extend
the deadline. -/
theorem muted_message_no_side_effects (now cid : Nat) (content : Str) (env : Env)
    (s : DaveState) (h : cid ∈ s.muted_tickets) :
    on_message now false true cid content env s = (s, []) := by
  simp [on_message, h]

/-- Witness for muted_message_no_side_effects on claimed ticket 1. -/
theorem muted_message_no_side_effects_witness :
    1 ∈ s_claimed.muted_tickets ∧
      on_message 100 false true 1 (("hello").toList) sampleEnv s_claimed = (s_claimed, []) :=
  ⟨by decide, muted_message_no_side_effects 100 1 (("hello").toList) sampleEnv s_claimed (by decide)⟩

/-- Claim C3 (counterexample): an uncancelled timer task whose ticket
message existed when the task started still emits the summary call and the
channel deletion even when, at fire time, the registry holds nothing at
all for the channel (as after a concurrent manual close) — the fire path
performs no registry re-validation after the deadline elapses. -/
theorem timer_fire_no_revalidation :
    Effect.summaryCall ∈ (start_timer 1 s_created false emptyState sampleEnv).2 ∧
      Effect.deleteChannel 1 ∈ (start_timer 1 s_created false emptyState sampleEnv).2 ∧
      List.lookup 1 emptyState.ticket_timers = none ∧
      1 ∉ emptyState.ticket_messages ∧
      List.lookup 1 emptyState.ticket_types = none := by
  decide

/-- Claim C3 (amended): start_timer checks the registry (ticket_messages)
only when the task starts, before the 3-day wait; after the deadline
elapses there is no re-validation — the emitted effects are identical for
any two registry states at fire time; only a cancellation during the wait,
or an absent ticket message at task start, prevents the summary and the
deletion. -/
theorem timer_fire_ignores_fire_state (cid : Nat) (sArm : DaveState) (c : Bool)
    (s1 s2 : DaveState) (env : Env) :
    (start_timer cid sArm c s1 env).2 = (start_timer cid sArm c s2 env).2 ∧
      (start_timer cid sArm true s1 env).2 = [] ∧
      (start_timer cid emptyState c s1 env).2 = [] := by
  refine ⟨?_, ?_, ?_⟩
  · unfold start_timer
    split_ifs <;> rfl
  · unfold start_timer
    split_ifs <;> simp_all
  · simp [start_timer, emptyState]

/-- Claim C4 (counterexample): claim is not exclusive.  After staff member
A claims ticket 1, a second claim by staff member B is not rejected: it
returns the same success response as the first, and the ticket embed ends
up with two Claimed By fields (A's and B's) — nothing records a claimant
or refuses a second claimant. -/
theorem claim_not_exclusive :
    secondClaim.2.2 = [Effect.editMessage,
        Effect.respond (("Ticket claimed. Dave will stay quiet unless asked.").toList)] ∧
      secondClaim.2.1 = [((("Claimed By").toList), (("@staffA").toList)),
        ((("Claimed By").toList), (("@staffB").toList))] := by
  decide

/-- Claim C4 (amended): the code records no claimant.  A claim by any
staff member on an already-claimed ticket succeeds exactly like the
first: the registry state is unchanged (the muted set already contains the
channel), another Claimed By field is appended to the embed, and the
success response is sent — no rejection, no recorded claimant. -/
theorem second_claim_succeeds (cid : Nat) (mention : Str) (fields : List (Str × Str))
    (s : DaveState) (h : cid ∈ s.muted_tickets) :
    (claimButtonCallback cid true mention fields s).1 = s ∧
      (claimButtonCallback cid true mention fields s).2.1
        = fields ++ [((("Claimed By").toList), mention)] ∧
      (claimButtonCallback cid true mention fields s).2.2
        = [Effect.editMessage,
           Effect.respond (("Ticket claimed. Dave will stay quiet unless asked.").toList)] := by
  have hins : insert cid s.muted_tickets = s.muted_tickets := Finset.insert_eq_self.mpr h
  refine ⟨?_, rfl, rfl⟩
  simp [claimButtonCallback, hins]

/-- Witness for second_claim_succeeds: staff member B re-claims claimed ticket 1. -/
theorem second_claim_succeeds_witness :
    1 ∈ s_claimed.muted_tickets ∧
      (claimButtonCallback 1 true (("@staffB").toList) [] s_claimed).1 = s_claimed :=
  ⟨by decide, (second_claim_succeeds 1 (("@staffB").toList) [] s_claimed (by decide)).1⟩

/-- Claim C5 (confirmed): three resets at t1 < t2 < t3, each within the
previous deadline, on a ticket whose message exists: every superseded
arming was cancelled by the reset that replaced it and never fires; any
arming that fires does so exactly at t3 + duration (so never before); and
if no further reset occurs exactly one arming fires. -/
theorem timer_reset_monotonicity (t1 t2 t3 : Nat) (h12 : t1 < t2) (h23 : t2 < t3)
    (hd2 : t2 < t1 + timerDuration) (hd3 : t3 < t2 + timerDuration) :
    (∀ a ∈ (TimerModel.threeResets t1 t2 t3).superseded, a.cancelledAt.isSome = true) ∧
      (∀ a ∈ (TimerModel.threeResets t1 t2 t3).superseded, TimerModel.Arming.fires a = false) ∧
      (∀ a ∈ (TimerModel.threeResets t1 t2 t3).armings,
        TimerModel.Arming.fires a = true → TimerModel.Arming.fireTime a = t3 + timerDuration) ∧
      ((TimerModel.threeResets t1 t2 t3).armings.filter TimerModel.Arming.fires).length = 1 := by
  have hd2n : t2 < t1 + 259200 := hd2
  have hd3n : t3 < t2 + 259200 := hd3
  have hts : TimerModel.threeResets t1 t2 t3
      = ⟨[⟨t1, true, some t2⟩, ⟨t2, true, some t3⟩], some ⟨t3, true, none⟩⟩ := rfl
  have hf1 : TimerModel.Arming.fires ⟨t1, true, some t2⟩ = false := by
    simp [TimerModel.Arming.fires, TimerModel.Arming.fireTime, timerDuration]
    omega
  have hf2 : TimerModel.Arming.fires ⟨t2, true, some t3⟩ = false := by
    simp [TimerModel.Arming.fires, TimerModel.Arming.fireTime, timerDuration]
    omega
  have hf3 : TimerModel.Arming.fires ⟨t3, true, none⟩ = true := rfl
  refine ⟨?_, ?_, ?_, ?_⟩
  · intro a ha
    rw [hts] at ha
    simp only [List.mem_cons, List.not_mem_nil, or_false] at ha
    rcases ha with h | h <;> subst h <;> rfl
  · intro a ha
    rw [hts] at ha
    simp only [List.mem_cons, List.not_mem_nil, or_false] at ha
    rcases ha with h | h <;> subst h
    · exact hf1
    · exact hf2
  · intro a ha hf
    rw [hts] at ha
    simp only [TimerModel.TimerState.armings, Option.toList, List.append_nil,
      List.mem_append, List.mem_cons, List.not_mem_nil, or_false, List.mem_singleton] at ha
    rcases ha with (h | h) | h <;> subst h
    · rw [hf1] at hf
      cases hf
    · rw [hf2] at hf
      cases hf
    · rfl
  · rw [hts]
    simp [TimerModel.TimerState.armings, List.filter, hf1, hf2, hf3]

/-- Witness for timer_reset_monotonicity at resets 0, 1, 2. -/
theorem timer_reset_monotonicity_witness :
    ((0 : Nat) < 1 ∧ (1 : Nat) < 2 ∧ (1 : Nat) < 0 + timerDuration ∧ (2 : Nat) < 1 + timerDuration) ∧
      ((TimerModel.threeResets 0 1 2).armings.filter TimerModel.Arming.fires).length = 1 :=
  ⟨by decide,
   (timer_reset_monotonicity 0 1 2 (by decide) (by decide) (by decide) (by decide)).2.2.2⟩

/-- Claim C6 (counterexample): closure is not atomic removal.  After
creating ticket 1 and closing it manually, the channel-deletion call was
made, yet the registry still holds the channel's ticket_messages entry and
its ticket_types entry for the deleted channel. -/
theorem close_leaves_registry_entries :
    Effect.deleteChannel 1 ∈ (closeButtonCallback 1 sampleEnv s_created).2 ∧
      1 ∈ s_closed.ticket_messages ∧
      List.lookup 1 s_closed.ticket_types = some (("Incident").toList) := by
  decide

/-- Claim C6 (amended): manual close removes only the channel's timer
entry and its mute flag, leaving its ticket_messages and ticket_types
entries in place; the timer-fire close path removes no registry entries at
all (start_timer passes the state through untouched) — so the
record-exists-iff-channel-exists invariant does not survive closure. -/
theorem close_removes_only_timer_and_mute (cid : Nat) (env : Env) (s : DaveState) :
    (closeButtonCallback cid env s).1.ticket_messages = s.ticket_messages ∧
      (closeButtonCallback cid env s).1.ticket_types = s.ticket_types ∧
      List.lookup cid (closeButtonCallback cid env s).1.ticket_timers = none ∧
      cid ∉ (closeButtonCallback cid env s).1.muted_tickets ∧
      ∀ sArm c sFire, (start_timer cid sArm c sFire env).1 = sFire := by
  refine ⟨?_, ?_, ?_, ?_, ?_⟩
  · simp only [closeButtonCallback]
    split_ifs <;> rfl
  · simp only [closeButtonCallback]
    split_ifs <;> rfl
  · simp only [closeButtonCallback]
    split_ifs with h1 h2 h3
    · exact lookup_eraseKey cid s.ticket_timers
    · exact lookup_eraseKey cid s.ticket_timers
    · exact Option.not_isSome_iff_eq_none.mp h1
    · exact Option.not_isSome_iff_eq_none.mp h1
  · simp only [closeButtonCallback]
    split_ifs with h1 h2 h3
    · exact Finset.not_mem_erase cid s.muted_tickets
    · exact h2
    · exact Finset.not_mem_erase cid s.muted_tickets
    · exact h3
  · intro sArm c sFire
    unfold start_timer
    split_ifs <;> rfl

/-- Claim C7 (confirmed): creation is transactional with respect to
channel creation.  If the chat platform's channel creation raises, the
callback propagates the exception after the defer: the registry is exactly
as before — no ticket_types, ticket_messages or ticket_timers entry was
inserted and no timer was armed — because every registry insert and the
timer arm sit after the channel-creation call in program order. -/
theorem creation_atomicity (now : Nat) (userId ty : Str) (s : DaveState) :
    ticketSelectCallback now userId ty (Except.error ()) s = (s, [Effect.deferResp]) := rfl

/-- Claim C8 (confirmed): when the AI collaborator raises, generate_summary
returns exactly "Summary could not be generated." and ask_dave returns its
fixed fallback string; both are total functions of the call outcome, so
neither propagates the error and closure never stalls on AI failure. -/
theorem ai_failure_fallback (e ty transcript user_message : Str) :
    generate_summary ty transcript (Except.error e) = ("Summary could not be generated.").toList ∧
      ask_dave user_message ty (Except.error e)
        = ("Sorry, I’m having trouble responding right now.").toList :=
  ⟨rfl, rfl⟩

/-- Claim C9 (confirmed): for a ticket created with one of the four
selectable types and a creator id containing no dash, the topic set at
creation is "<userId>-<type>", and the summary path's parse of that topic
(split on the dash, take index 1) yields exactly the chosen type, so the
summary is styled with the type chosen at creation. -/
theorem ticket_type_roundtrip (userId ty : Str) (h1 : '-' ∉ userId)
    (h2 : ty ∈ [("General").toList, ("Incident").toList, ("Report").toList, ("Feedback").toList]) :
    parse_topic_ticket_type (some (ticketTopic userId ty)) = ty := by
  have hty : '-' ∉ ty := by
    simp only [List.mem_cons, List.not_mem_nil, or_false] at h2
    rcases h2 with h | h | h | h <;> subst h <;> decide
  have hne : ticketTopic userId ty ≠ [] := by
    simp [ticketTopic]
  have hmem : '-' ∈ ticketTopic userId ty := by
    simp [ticketTopic]
  simp only [parse_topic_ticket_type]
  rw [if_pos ⟨hne, hmem⟩]
  unfold ticketTopic
  rw [py_split_dash_append userId ty h1, py_split_dash_no_dash ty hty]
  rfl

/-- Witness for ticket_type_roundtrip: user 12345, type Incident. -/
theorem ticket_type_roundtrip_witness :
    ('-' ∉ (("12345").toList)) ∧
      ((("Incident").toList)
        ∈ [("General").toList, ("Incident").toList, ("Report").toList, ("Feedback").toList]) ∧
      parse_topic_ticket_type (some (ticketTopic (("12345").toList) (("Incident").toList)))
        = ("Incident").toList :=
  ⟨by decide, by decide,
   ticket_type_roundtrip (("12345").toList) (("Incident").toList) (by decide) (by decide)⟩

/-- Claim C10 (confirmed): the transcript gathered for the closure summary
is exactly the non-bot messages among the 100 oldest messages, in history
order, each formatted as "<display name>: <content>", joined by
newlines. -/
theorem summary_transcript_contents (history : List Msg) :
    get_ticket_messages history
      = List.intercalate (("\n").toList)
          (List.map fmt_msg (List.filter (fun m => !m.author_bot) (history.take 100))) := by
  unfold get_ticket_messages
  rw [gather_nonbot_eq_map_filter]
